import Mathlib

/-!
Verification of the Trust Evaluation & Retrieval Ranking Engine of the
rag-trust-evaluation repository.  The TypeScript sources are shallowly
embedded: JavaScript numbers are modelled by `JSNum` (NaN, signed
infinity, or an exact rational), strings by `String` / `List Char`,
stateful asynchronous code by explicit oracles and step relations.
-/

namespace RagTrust

/-- Model of a JavaScript number: NaN, a signed infinity, or a finite value
(represented exactly as a rational; IEEE rounding of in-range arithmetic is
not modelled, finiteness and the non-finite special cases are). -/
inductive JSNum where
  | nan : JSNum
  | inf : Bool → JSNum
  | fin : ℚ → JSNum
deriving DecidableEq, Repr

/-- `Number.isFinite`. -/
def JSNum.isFinite : JSNum → Bool
  | .fin _ => true
  | _ => false

/-- JavaScript addition restricted to the cases the model distinguishes. -/
def JSNum.add : JSNum → JSNum → JSNum
  | .nan, _ => .nan
  | _, .nan => .nan
  | .inf b, .inf c => if b = c then .inf b else .nan
  | .inf b, .fin _ => .inf b
  | .fin _, .inf c => .inf c
  | .fin a, .fin b => .fin (a + b)

/-- JavaScript multiplication: NaN propagates, `inf * 0 = NaN`, signs follow
the usual rules. -/
def JSNum.mul : JSNum → JSNum → JSNum
  | .nan, _ => .nan
  | _, .nan => .nan
  | .inf b, .inf c => .inf (b = c)
  | .inf b, .fin q => if q = 0 then .nan else .inf (b = decide (0 < q))
  | .fin q, .inf b => if q = 0 then .nan else .inf (b = decide (0 < q))
  | .fin a, .fin b => .fin (a * b)

/-- `Math.max`: NaN wins, otherwise the larger argument. -/
def JSNum.jsMax : JSNum → JSNum → JSNum
  | .nan, _ => .nan
  | _, .nan => .nan
  | .inf true, _ => .inf true
  | _, .inf true => .inf true
  | .inf false, b => b
  | a, .inf false => a
  | .fin a, .fin b => .fin (max a b)

/-- JavaScript `>=`: any comparison with NaN is false. -/
def JSNum.jsGe : JSNum → JSNum → Bool
  | .nan, _ => false
  | _, .nan => false
  | .inf true, _ => true
  | _, .inf true => false
  | _, .inf false => true
  | .inf false, _ => false
  | .fin a, .fin b => decide (b ≤ a)

/-- `clamp` from `trust.score.ts`: non-finite values collapse to `0`,
finite values are clamped into `[0, 1]`. -/
def jsClamp (v : JSNum) : ℚ :=
  match v with
  | .fin q => max 0 (min 1 q)
  | _ => 0

/-- The three configurable trust weights (`TRUST_WEIGHTS` shape). -/
structure TrustWeights where
  faithfulness : JSNum
  precision : JSNum
  similarity : JSNum
deriving DecidableEq, Repr

/-- `TRUST_WEIGHTS` as resolved with the environment unset: `safeNumber`
falls back to `0.4 / 0.3 / 0.3`.  Environment overrides are modelled by the
`envWeights` parameter of `calculateTrustScore`. -/
def TRUST_WEIGHTS : TrustWeights :=
  ⟨.fin (2/5), .fin (3/10), .fin (3/10)⟩

/-- Lightweight-mode input of `calculateTrustScore`.  The optional
`citationInvalidAfterRetry` flag is modelled as a `Bool` because the code
only ever tests its truthiness (`Boolean(undefined) = false`). -/
structure LightweightTrustInput where
  retrievalQuality : JSNum
  citationCoverage : JSNum
  citationValidity : JSNum
  citationInvalidAfterRetry : Bool := false
deriving DecidableEq, Repr

/-- Full-mode input of `calculateTrustScore`. -/
structure FullTrustInput where
  precisionAtK : JSNum
  faithfulnessScore : JSNum
  answerSimilarityToGroundTruth : Option JSNum := none
  citationCoverage : JSNum
  citationValidity : JSNum
  citationInvalidAfterRetry : Bool := false
  weights : Option TrustWeights := none
deriving DecidableEq, Repr

/-- The `TrustScoreInput` union type. -/
inductive TrustScoreInput where
  | lightweight : LightweightTrustInput → TrustScoreInput
  | full : FullTrustInput → TrustScoreInput
deriving DecidableEq, Repr

/-- The two trust modes. -/
inductive TrustMode where
  | lightweight : TrustMode
  | full : TrustMode
deriving DecidableEq, Repr

/-- `TrustBreakdown` from `types.ts`; optional fields are present only in
the mode that produces them. -/
structure TrustBreakdown where
  mode : TrustMode
  score : ℚ
  retrievalQuality : Option ℚ := none
  citationCoverage : ℚ
  citationValidity : ℚ
  faithfulnessScore : Option ℚ := none
  precisionAtK : Option ℚ := none
  answerSimilarityToGroundTruth : Option ℚ := none
  baseScore : Option ℚ := none
  citationScore : Option ℚ := none
  semanticCompensationApplied : Option Bool := none
  cappedByCitationPolicy : Bool
  capValue : Option ℚ := none
deriving DecidableEq, Repr

/-- `calculateTrustScore` from `trust.score.ts`.  `envWeights` stands for
the module-level `TRUST_WEIGHTS` constant (environment-configurable, its
default is `RagTrust.TRUST_WEIGHTS`). -/
def calculateTrustScore (envWeights : TrustWeights) :
    TrustScoreInput → TrustBreakdown
  | .lightweight i =>
    let raw : ℚ :=
      3/5 * jsClamp i.retrievalQuality + 1/4 * jsClamp i.citationCoverage +
        3/20 * jsClamp i.citationValidity
    let score0 := jsClamp (.fin raw)
    let score := if i.citationInvalidAfterRetry then min score0 (7/20) else score0
    { mode := .lightweight
      score := score
      retrievalQuality := some (jsClamp i.retrievalQuality)
      citationCoverage := jsClamp i.citationCoverage
      citationValidity := jsClamp i.citationValidity
      cappedByCitationPolicy := i.citationInvalidAfterRetry
      capValue := if i.citationInvalidAfterRetry then some (7/20) else none }
  | .full i =>
    let weights := i.weights.getD envWeights
    let similarity0 := i.answerSimilarityToGroundTruth.getD (.fin (1/2))
    let similarity : ℚ :=
      match similarity0 with
      | .fin q => q
      | _ => 1/2
    let baseScore : JSNum :=
      ((weights.faithfulness.mul (.fin (jsClamp i.faithfulnessScore))).add
        (weights.precision.mul (.fin (jsClamp i.precisionAtK)))).add
        (weights.similarity.mul (.fin (jsClamp (.fin similarity))))
    let citationScore : ℚ :=
      7/10 * jsClamp i.citationCoverage + 3/10 * jsClamp i.citationValidity
    let combined0 : JSNum :=
      ((JSNum.fin (4/5)).mul baseScore).add (.fin (1/5 * citationScore))
    let compensate :=
      i.faithfulnessScore.jsGe (.fin (9/10)) && decide ((3/4 : ℚ) < similarity)
    let combined : JSNum :=
      if compensate then combined0.jsMax (.fin (3/4)) else combined0
    let score0 := jsClamp combined
    let score := if i.citationInvalidAfterRetry then min score0 (3/5) else score0
    { mode := .full
      score := score
      faithfulnessScore := some (jsClamp i.faithfulnessScore)
      precisionAtK := some (jsClamp i.precisionAtK)
      answerSimilarityToGroundTruth := some (jsClamp (.fin similarity))
      citationCoverage := jsClamp i.citationCoverage
      citationValidity := jsClamp i.citationValidity
      baseScore := some (jsClamp baseScore)
      citationScore := some (jsClamp (.fin citationScore))
      semanticCompensationApplied := some compensate
      cappedByCitationPolicy := i.citationInvalidAfterRetry
      capValue := if i.citationInvalidAfterRetry then some (3/5) else none }

lemma jsClamp_nonneg (v : JSNum) : 0 ≤ jsClamp v := by
  cases v with
  | fin q => simp [jsClamp]
  | nan => simp [jsClamp]
  | inf b => simp [jsClamp]

lemma jsClamp_le_one (v : JSNum) : jsClamp v ≤ 1 := by
  cases v with
  | fin q =>
    simp only [jsClamp]
    rcases le_total 1 q with h | h
    · simp [max_le_iff, min_le_iff]
    · simp [max_le_iff, min_le_iff]
  | nan => simp [jsClamp]
  | inf b => simp [jsClamp]

/-- **C1.** In either mode, for completely arbitrary numeric component
inputs (including NaN and infinities) and arbitrary environment weights,
the `score` field of the returned `TrustBreakdown` lies in `[0, 1]`, and
`capValue` is populated exactly when the citation-policy cap was applied
(i.e. when `cappedByCitationPolicy` is set). -/
theorem calculateTrustScore_score_bounded (envWeights : TrustWeights)
    (input : TrustScoreInput) :
    0 ≤ (calculateTrustScore envWeights input).score ∧
      (calculateTrustScore envWeights input).score ≤ 1 ∧
      ((calculateTrustScore envWeights input).capValue.isSome ↔
        (calculateTrustScore envWeights input).cappedByCitationPolicy = true) := by
  cases input with
  | lightweight i =>
    cases hretry : i.citationInvalidAfterRetry with
    | false =>
      refine ⟨?_, ?_, ?_⟩ <;>
        simp [calculateTrustScore, hretry, jsClamp_nonneg, jsClamp_le_one]
    | true =>
      refine ⟨?_, ?_, ?_⟩
      · simp only [calculateTrustScore, hretry, if_true]
        exact le_min (jsClamp_nonneg _) (by norm_num)
      · simp only [calculateTrustScore, hretry, if_true]
        exact le_trans (min_le_left _ _) (jsClamp_le_one _)
      · simp [calculateTrustScore, hretry]
  | full i =>
    cases hretry : i.citationInvalidAfterRetry with
    | false =>
      refine ⟨?_, ?_, ?_⟩ <;>
        simp [calculateTrustScore, hretry, jsClamp_nonneg, jsClamp_le_one]
    | true =>
      refine ⟨?_, ?_, ?_⟩
      · simp only [calculateTrustScore, hretry, if_true]
        exact le_min (jsClamp_nonneg _) (by norm_num)
      · simp only [calculateTrustScore, hretry, if_true]
        exact le_trans (min_le_left _ _) (jsClamp_le_one _)
      · simp [calculateTrustScore, hretry]

@[simp] lemma JSNum.mul_fin_fin (a b : ℚ) :
    JSNum.mul (.fin a) (.fin b) = .fin (a * b) := rfl

@[simp] lemma JSNum.add_fin_fin (a b : ℚ) :
    JSNum.add (.fin a) (.fin b) = .fin (a + b) := rfl

@[simp] lemma JSNum.jsMax_fin_fin (a b : ℚ) :
    JSNum.jsMax (.fin a) (.fin b) = .fin (max a b) := rfl

@[simp] lemma jsClamp_fin (q : ℚ) : jsClamp (.fin q) = max 0 (min 1 q) := rfl

/-- **C2.** Full-mode trust scoring.  With finite resolved weights
`wf / wp / ws` (resolution: the explicit `weights` field, else the default
`TRUST_WEIGHTS`, i.e. `0.4 / 0.3 / 0.3`) and similarity `sim` (defaulting
to `0.5` when no ground-truth similarity is supplied): the score is the
clamped `0.8 * base + 0.2 * citationScore` over clamped inputs, where
`base = wf*faithfulness + wp*precisionAtK + ws*similarity` and
`citationScore = 0.7*coverage + 0.3*validity`; whenever
`faithfulness >= 0.9` and `sim > 0.75` the combined score is first raised
to at least `0.75` and the breakdown records the compensation, and whenever
`citationInvalidAfterRetry` is set the final score is capped at `0.60`,
the cap prevailing over the compensation floor. -/
theorem calculateTrustScore_full_formula (i : FullTrustInput)
    (wf wp ws sim : ℚ)
    (hw : i.weights.getD TRUST_WEIGHTS = ⟨.fin wf, .fin wp, .fin ws⟩)
    (hsim : i.answerSimilarityToGroundTruth = some (.fin sim) ∨
      (i.answerSimilarityToGroundTruth = none ∧ sim = 1/2)) :
    (calculateTrustScore TRUST_WEIGHTS (.full i)).score =
      (let base : ℚ := wf * jsClamp i.faithfulnessScore +
        wp * jsClamp i.precisionAtK + ws * max 0 (min 1 sim)
      let citationScore : ℚ := 7/10 * jsClamp i.citationCoverage +
        3/10 * jsClamp i.citationValidity
      let combined : ℚ :=
        if i.faithfulnessScore.jsGe (.fin (9/10)) && decide ((3/4 : ℚ) < sim)
          then max (4/5 * base + 1/5 * citationScore) (3/4)
          else 4/5 * base + 1/5 * citationScore
      if i.citationInvalidAfterRetry then min (max 0 (min 1 combined)) (3/5)
        else max 0 (min 1 combined)) ∧
    (calculateTrustScore TRUST_WEIGHTS (.full i)).semanticCompensationApplied =
      some (i.faithfulnessScore.jsGe (.fin (9/10)) && decide ((3/4 : ℚ) < sim)) ∧
    (i.faithfulnessScore.jsGe (.fin (9/10)) = true → (3/4 : ℚ) < sim →
      i.citationInvalidAfterRetry = false →
      3/4 ≤ (calculateTrustScore TRUST_WEIGHTS (.full i)).score) ∧
    (i.citationInvalidAfterRetry = true →
      (calculateTrustScore TRUST_WEIGHTS (.full i)).score ≤ 3/5) := by
  have hsimEq :
      (match i.answerSimilarityToGroundTruth.getD (.fin (1/2)) with
        | .fin q => q
        | _ => (1/2 : ℚ)) = sim := by
    rcases hsim with h | ⟨h, rfl⟩ <;> simp [h]
  have hscore : (calculateTrustScore TRUST_WEIGHTS (.full i)).score =
      (let base : ℚ := wf * jsClamp i.faithfulnessScore +
        wp * jsClamp i.precisionAtK + ws * max 0 (min 1 sim)
      let citationScore : ℚ := 7/10 * jsClamp i.citationCoverage +
        3/10 * jsClamp i.citationValidity
      let combined : ℚ :=
        if i.faithfulnessScore.jsGe (.fin (9/10)) && decide ((3/4 : ℚ) < sim)
          then max (4/5 * base + 1/5 * citationScore) (3/4)
          else 4/5 * base + 1/5 * citationScore
      if i.citationInvalidAfterRetry then min (max 0 (min 1 combined)) (3/5)
        else max 0 (min 1 combined)) := by
    simp only [calculateTrustScore, hw, hsimEq]
    cases hcomp : i.faithfulnessScore.jsGe (.fin (9/10)) &&
        decide ((3/4 : ℚ) < sim) <;>
      cases hretry : i.citationInvalidAfterRetry <;>
        simp [hcomp, hretry, mul_add, mul_comm, mul_assoc, mul_left_comm,
          add_assoc]
  refine ⟨hscore, ?_, ?_, ?_⟩
  · simp only [calculateTrustScore, hw, hsimEq]
  · intro hge hlt hretry
    rw [hscore]
    simp only [hge, hretry, decide_eq_true_eq, Bool.true_and, if_false,
      Bool.false_eq_true, hlt, if_true, decide_eq_true hlt]
    have h34 : (3/4 : ℚ) ≤ min 1 (max (4/5 * (wf * jsClamp i.faithfulnessScore +
        wp * jsClamp i.precisionAtK + ws * max 0 (min 1 sim)) +
        1/5 * (7/10 * jsClamp i.citationCoverage +
          3/10 * jsClamp i.citationValidity)) (3/4)) :=
      le_min (by norm_num) (le_max_right _ _)
    exact le_trans h34 (le_max_right _ _)
  · intro hretry
    rw [hscore]
    simp only [hretry, if_true]
    exact min_le_right _ _

/-- Witness for C2: all components equal to `1` with the default weights and
no retry cap give score `1` (and compensation is recorded). -/
theorem calculateTrustScore_full_formula_witness :
    (calculateTrustScore TRUST_WEIGHTS (.full
      { precisionAtK := .fin 1, faithfulnessScore := .fin 1,
        answerSimilarityToGroundTruth := some (.fin 1),
        citationCoverage := .fin 1, citationValidity := .fin 1 })).score = 1 := by
  have h := calculateTrustScore_full_formula
    { precisionAtK := .fin 1, faithfulnessScore := .fin 1,
      answerSimilarityToGroundTruth := some (.fin 1),
      citationCoverage := .fin 1, citationValidity := .fin 1 }
    (2/5) (3/10) (3/10) 1 rfl (Or.inl rfl)
  rw [h.1]
  norm_num [JSNum.jsGe, jsClamp]

/-- **C3.** Lightweight-mode trust scoring: for in-range component inputs,
the score is `clamp(0.6*retrievalQuality + 0.25*citationCoverage +
0.15*citationValidity)`, capped at `0.35` when `citationInvalidAfterRetry`
is set; with all three components equal to `1` the score is `1`, and the
same inputs with the retry flag give exactly `0.35`. -/
theorem calculateTrustScore_lightweight_formula (i : LightweightTrustInput)
    (rq cov val : ℚ)
    (hr : i.retrievalQuality = .fin rq)
    (hc : i.citationCoverage = .fin cov)
    (hv : i.citationValidity = .fin val)
    (h1 : 0 ≤ rq) (h2 : rq ≤ 1) (h3 : 0 ≤ cov) (h4 : cov ≤ 1)
    (h5 : 0 ≤ val) (h6 : val ≤ 1) :
    (calculateTrustScore TRUST_WEIGHTS (.lightweight i)).score =
      (if i.citationInvalidAfterRetry
        then min (max 0 (min 1 (3/5 * rq + 1/4 * cov + 3/20 * val))) (7/20)
        else max 0 (min 1 (3/5 * rq + 1/4 * cov + 3/20 * val))) ∧
    (calculateTrustScore TRUST_WEIGHTS
      (.lightweight ⟨.fin 1, .fin 1, .fin 1, false⟩)).score = 1 ∧
    (calculateTrustScore TRUST_WEIGHTS
      (.lightweight ⟨.fin 1, .fin 1, .fin 1, true⟩)).score = 7/20 := by
  refine ⟨?_, ?_, ?_⟩
  · have er : jsClamp i.retrievalQuality = rq := by
      rw [hr]; simp [jsClamp, min_eq_right h2, max_eq_right h1]
    have ec : jsClamp i.citationCoverage = cov := by
      rw [hc]; simp [jsClamp, min_eq_right h4, max_eq_right h3]
    have ev : jsClamp i.citationValidity = val := by
      rw [hv]; simp [jsClamp, min_eq_right h6, max_eq_right h5]
    simp only [calculateTrustScore, er, ec, ev, jsClamp_fin]
  · norm_num [calculateTrustScore, jsClamp]
  · norm_num [calculateTrustScore, jsClamp]

/-- Witness for C3: the formula instantiated at all-ones input without the
retry flag evaluates to score `1`. -/
theorem calculateTrustScore_lightweight_formula_witness :
    (calculateTrustScore TRUST_WEIGHTS
      (.lightweight ⟨.fin 1, .fin 1, .fin 1, false⟩)).score = 1 := by
  have h := calculateTrustScore_lightweight_formula
    ⟨.fin 1, .fin 1, .fin 1, false⟩ 1 1 1 rfl rfl rfl
    (by norm_num) (by norm_num) (by norm_num) (by norm_num)
    (by norm_num) (by norm_num)
  rw [h.1]
  norm_num

/-- The JavaScript `\s` whitespace class (the code points relevant to this
corpus: ASCII whitespace plus the usual Unicode space separators). -/
def jsWhitespaceChar (c : Char) : Bool :=
  c = ' ' || c = '\t' || c = '\n' || c = '\r' || c.toNat = 11 ||
  c.toNat = 12 || c.toNat = 160 || (8192 ≤ c.toNat && c.toNat ≤ 8202) ||
  c.toNat = 8232 || c.toNat = 8233 || c.toNat = 8239 || c.toNat = 8287 ||
  c.toNat = 12288 || c.toNat = 65279

/-- The Unicode class `[\p{L}\p{N}]` restricted to the repertoire this
repository works with: ASCII alphanumerics, Latin-1 and Latin-Extended
letters (excluding the two arithmetic signs), and Cyrillic. -/
def jsWordChar (c : Char) : Bool :=
  c.isAlphanum || (1024 ≤ c.toNat && c.toNat ≤ 1279) ||
  (192 ≤ c.toNat && c.toNat ≤ 591 && c.toNat ≠ 215 && c.toNat ≠ 247)

/-- Numeric value of a digit string (`Number("...")` on a digit capture). -/
def digitsToNat (l : List Char) : ℕ :=
  l.foldl (fun n c => 10 * n + (c.toNat - 48)) 0

/-- One-pass scanner equivalent to the global-regex loop over `\[(\d+)\]`
in `citation.extractor.ts`.  The state is `none` outside a candidate
marker and `some ds` after an opening bracket with digits `ds` read so
far; since only an opening bracket can start a match, restarting the scan
one character after a failed attempt (the regex semantics) amounts to
re-dispatching only on a bracket. -/
def extractCitationsAux : Option (List Char) → List Char → List ℕ
  | _, [] => []
  | none, c :: cs =>
    if c = '[' then extractCitationsAux (some []) cs
    else extractCitationsAux none cs
  | some ds, c :: cs =>
    if c.isDigit then extractCitationsAux (some (ds ++ [c])) cs
    else if c = ']' && !ds.isEmpty then
      digitsToNat ds :: extractCitationsAux none cs
    else if c = '[' then extractCitationsAux (some []) cs
    else extractCitationsAux none cs

/-- All `[n]` citation markers of a string, in order of appearance. -/
def extractCitationNumbers (l : List Char) : List ℕ :=
  extractCitationsAux none l

/-- `Number.isFinite(Number(digits))`: the parsed value stays below the
IEEE double overflow threshold (approximated by `2 ^ 1024`; only citation
markers with more than three hundred digits are affected). -/
def jsFiniteDigits (n : ℕ) : Bool := decide (n < 2 ^ 1024)

/-- `.`, `!` or `?` — the sentence-boundary punctuation of
`splitSentences`. -/
def sentencePunct (c : Char) : Bool := c = '.' || c = '!' || c = '?'

/-- Scanner modes for the sentence splitter: inside a segment, inside a
post-punctuation whitespace-run separator, or inside a newline-run
separator. -/
inductive SepMode where
  | text : SepMode
  | wsRun : SepMode
  | nlRun : SepMode
deriving DecidableEq, Repr

/-- Scanner for `answer.split(/(?<=[.!?])\s+|\n+/)`: a separator is a
maximal whitespace run whose preceding character is sentence punctuation,
or (otherwise) a maximal newline run.  `prev` is the character before the
scan position, `acc` the current segment reversed; a separator run ends at
the first character it cannot absorb, which then starts the next segment
(it can never itself start a separator, since the character before it is
run whitespace, not punctuation). -/
def splitSentencesAux : SepMode → Option Char → List Char → List Char →
    List (List Char)
  | _, _, acc, [] => [acc.reverse]
  | .wsRun, _, acc, c :: cs =>
    if jsWhitespaceChar c then splitSentencesAux .wsRun (some c) acc cs
    else splitSentencesAux .text (some c) [c] cs
  | .nlRun, _, acc, c :: cs =>
    if c = '\n' then splitSentencesAux .nlRun (some c) acc cs
    else splitSentencesAux .text (some c) [c] cs
  | .text, prev, acc, c :: cs =>
    if (prev.map sentencePunct).getD false && jsWhitespaceChar c then
      acc.reverse :: splitSentencesAux .wsRun (some c) [] cs
    else if c = '\n' then
      acc.reverse :: splitSentencesAux .nlRun (some c) [] cs
    else
      splitSentencesAux .text (some c) (c :: acc) cs

/-- JavaScript `String.prototype.trim`. -/
def jsTrim (l : List Char) : List Char :=
  ((l.dropWhile jsWhitespaceChar).reverse.dropWhile jsWhitespaceChar).reverse

/-- `splitSentences` from `citation.extractor.ts`: split at sentence
boundaries, trim each piece, keep the non-empty ones. -/
def splitSentences (answer : List Char) : List (List Char) :=
  ((splitSentencesAux .text none [] answer).map jsTrim).filter
    (fun s => !s.isEmpty)

/-- `isFactualSentence`: at least 20 characters and at least one letter or
digit. -/
def isFactualSentence (s : List Char) : Bool :=
  decide (20 ≤ s.length) && s.any jsWordChar

/-- `/\[(\d+)\]/.test(s)`: the sentence carries a citation marker. -/
def containsCitation (s : List Char) : Bool :=
  !(extractCitationNumbers s).isEmpty

/-- `CitationValidationResult` from `types.ts`. -/
structure CitationValidationResult where
  citations : List ℕ
  uniqueCitations : List ℕ
  invalidCitations : List ℕ
  hasCitations : Bool
  factualSentenceCount : ℕ
  citedSentenceCount : ℕ
  missingCitationSentenceCount : ℕ
  coverage : ℚ
  citationValidity : ℚ
  isValid : Bool
  retryCount : ℕ
  issues : List String
deriving DecidableEq, Repr

/-- `extractAndValidateCitations` from `citation.extractor.ts`.
`uniqueCitations` is the sorted deduplication of the extracted markers
(`Array.from(new Set(..)).sort(numeric)`). -/
def extractAndValidateCitations (answer : List Char) (sourceCount : ℕ) :
    CitationValidationResult :=
  let citations := (extractCitationNumbers answer).filter jsFiniteDigits
  let uniqueCitations := List.insertionSort (· ≤ ·) citations.dedup
  let invalidCitations :=
    uniqueCitations.filter (fun c => c < 1 || sourceCount < c)
  let hasCitations := !uniqueCitations.isEmpty
  let factualSentences := (splitSentences answer).filter isFactualSentence
  let citedSentenceCount := (factualSentences.filter containsCitation).length
  let factualSentenceCount := factualSentences.length
  let coverage : ℚ :=
    if 0 < factualSentenceCount then
      (citedSentenceCount : ℚ) / (factualSentenceCount : ℚ)
    else 0
  let citationValidity : ℚ :=
    if hasCitations && invalidCitations.isEmpty then 1 else 0
  let issues :=
    (if !hasCitations then ["missing_citations"] else []) ++
    (if !invalidCitations.isEmpty then ["invalid_reference_indices"] else []) ++
    (if coverage < 4/5 then ["insufficient_citation_coverage"] else [])
  { citations := citations
    uniqueCitations := uniqueCitations
    invalidCitations := invalidCitations
    hasCitations := hasCitations
    factualSentenceCount := factualSentenceCount
    citedSentenceCount := citedSentenceCount
    missingCitationSentenceCount := factualSentenceCount - citedSentenceCount
    coverage := coverage
    citationValidity := citationValidity
    isValid := hasCitations && invalidCitations.isEmpty &&
      decide ((4/5 : ℚ) ≤ coverage)
    retryCount := 0
    issues := issues }

lemma mem_sorted_dedup (l : List ℕ) (c : ℕ) :
    c ∈ List.insertionSort (· ≤ ·) l.dedup ↔ c ∈ l := by
  rw [(List.perm_insertionSort _ _).mem_iff, List.mem_dedup]

lemma sorted_dedup_eq_nil (l : List ℕ) :
    List.insertionSort (· ≤ ·) l.dedup = [] ↔ l = [] := by
  constructor
  · intro h
    have hp := List.perm_insertionSort (· ≤ ·) l.dedup
    rw [h] at hp
    exact (List.dedup_eq_nil _).mp (List.Perm.nil_eq hp).symm
  · intro h
    subst h
    simp [List.insertionSort]

lemma if_bool_eq_one_iff (b : Bool) :
    ((if b then (1 : ℚ) else 0) = 1) ↔ b = true := by
  cases b <;> simp

lemma if_bool_one_or_zero (b : Bool) :
    (if b then (1 : ℚ) else 0) = 1 ∨ (if b then (1 : ℚ) else 0) = 0 := by
  cases b <;> simp

/-- **C4.** For every answer string and source count, the citation
validator returns coverage equal to the cited-sentence count divided by the
factual-sentence count (`0` when there are no factual sentences),
`citationValidity = 1` exactly when at least one citation was extracted
and none falls outside `[1, sourceCount]` (else `0`), and `isValid` true
exactly when citations exist, none is invalid, and coverage is at least
`0.8`. -/
theorem extractAndValidateCitations_spec (answer : List Char)
    (sourceCount : ℕ) :
    ((extractAndValidateCitations answer sourceCount).coverage =
      if (extractAndValidateCitations answer sourceCount).factualSentenceCount
          = 0 then 0
      else ((extractAndValidateCitations answer
          sourceCount).citedSentenceCount : ℚ) /
        ((extractAndValidateCitations answer
          sourceCount).factualSentenceCount : ℚ)) ∧
    ((extractAndValidateCitations answer sourceCount).citationValidity = 1 ↔
      (extractAndValidateCitations answer sourceCount).citations ≠ [] ∧
      ∀ c ∈ (extractAndValidateCitations answer sourceCount).citations,
        1 ≤ c ∧ c ≤ sourceCount) ∧
    ((extractAndValidateCitations answer sourceCount).citationValidity = 1 ∨
      (extractAndValidateCitations answer sourceCount).citationValidity = 0) ∧
    ((extractAndValidateCitations answer sourceCount).isValid = true ↔
      (extractAndValidateCitations answer sourceCount).citations ≠ [] ∧
      (∀ c ∈ (extractAndValidateCitations answer sourceCount).citations,
        1 ≤ c ∧ c ≤ sourceCount) ∧
      (4/5 : ℚ) ≤ (extractAndValidateCitations answer sourceCount).coverage) := by
  have hmem := fun c => mem_sorted_dedup
    ((extractCitationNumbers answer).filter jsFiniteDigits) c
  have hnil := sorted_dedup_eq_nil
    ((extractCitationNumbers answer).filter jsFiniteDigits)
  have hvalidIff :
      (!(List.insertionSort (· ≤ ·)
          ((extractCitationNumbers answer).filter jsFiniteDigits).dedup).isEmpty
        && ((List.insertionSort (· ≤ ·)
          ((extractCitationNumbers answer).filter jsFiniteDigits).dedup).filter
            (fun c => c < 1 || sourceCount < c)).isEmpty) = true ↔
      ((extractCitationNumbers answer).filter jsFiniteDigits ≠ [] ∧
        ∀ c ∈ (extractCitationNumbers answer).filter jsFiniteDigits,
          1 ≤ c ∧ c ≤ sourceCount) := by
    rw [Bool.and_eq_true, Bool.not_eq_true', List.isEmpty_eq_false,
      List.isEmpty_iff, List.filter_eq_nil_iff, Ne, hnil]
    constructor
    · rintro ⟨h1, h2⟩
      refine ⟨h1, fun c hc => ?_⟩
      have := h2 c ((hmem c).mpr hc)
      simp only [Bool.or_eq_true, decide_eq_true_eq, not_or] at this
      omega
    · rintro ⟨h1, h2⟩
      refine ⟨h1, fun c hc => ?_⟩
      have := h2 c ((hmem c).mp hc)
      simp only [Bool.or_eq_true, decide_eq_true_eq, not_or]
      omega
  refine ⟨?_, ?_, ?_, ?_⟩
  · simp only [extractAndValidateCitations]
    rcases Nat.eq_zero_or_pos
      ((splitSentences answer).filter isFactualSentence).length with h | h
    · simp [h]
    · simp [h, Nat.pos_iff_ne_zero.mp h]
  · simp only [extractAndValidateCitations]
    rw [if_bool_eq_one_iff]
    exact hvalidIff
  · simp only [extractAndValidateCitations]
    exact if_bool_one_or_zero _
  · simp only [extractAndValidateCitations]
    rw [Bool.and_eq_true, decide_eq_true_eq, hvalidIff, and_assoc]

/-- JavaScript `toFixed(2)` for the nonnegative rationals occurring as
coverage values: round to the nearest hundredth, ties toward the larger
candidate, print with two decimals. -/
def toFixed2 (q : ℚ) : String :=
  let n : ℤ := Int.floor (q * 100 + 1/2)
  let fp := (n % 100).toNat
  toString (n / 100) ++ "." ++ (if fp < 10 then "0" else "") ++ toString fp

/-- `buildRetryPrompt` from `rag.service.ts`: the feedback prompt for the
citation-regeneration retry. -/
def buildRetryPrompt (basePrompt : String) (previousAnswer : String)
    (validation : CitationValidationResult) (sourceCount : ℕ) : String :=
  let invalidRefs :=
    if validation.invalidCitations.length > 0 then
      "invalid refs: " ++
        String.intercalate ", " (validation.invalidCitations.map toString)
    else "invalid refs: none"
  basePrompt ++
    "\n\nYour previous answer failed citation validation.\nFeedback:\n- " ++
    invalidRefs ++ "\n- missing citations: " ++
    (if !validation.hasCitations then "true" else "false") ++
    "\n- citation coverage: " ++ toFixed2 validation.coverage ++
    " (required >= 0.80)\n- every factual sentence must contain [n], " ++
    "where n is between 1 and " ++ toString sourceCount ++
    "\n\nPrevious answer:\n" ++ previousAnswer ++
    "\n\nRewrite the answer and fix citation format and coverage.\nAnswer:"

lemma extractAndValidateCitations_retryCount (answer : List Char) (n : ℕ) :
    (extractAndValidateCitations answer n).retryCount = 0 := rfl

/-- Outcome of the generation segment: final answer, final validation, and
the number of calls made to the generation collaborator. -/
structure RetryOutcome where
  answer : String
  validation : CitationValidationResult
  generationCalls : ℕ
deriving DecidableEq, Repr

/-- The generate / validate / one-shot-retry segment of `processRagQuery`
(`rag.service.ts`): generate an answer, validate its citations, and when
invalid regenerate exactly once from the feedback prompt, re-validate, and
set `retryCount = 1`.  `gen` is the oracle for the external `generate`
collaborator, mapping each prompt to the answer returned for it. -/
def generateValidateWithRetry (gen : String → String) (basePrompt : String)
    (sourceCount : ℕ) : RetryOutcome :=
  let answer := gen basePrompt
  let validation := extractAndValidateCitations answer.data sourceCount
  if validation.isValid then ⟨answer, validation, 1⟩
  else
    let retryPrompt := buildRetryPrompt basePrompt answer validation sourceCount
    let answer2 := gen retryPrompt
    let v2 := extractAndValidateCitations answer2.data sourceCount
    ⟨answer2, { v2 with retryCount := 1 }, 2⟩

/-- **C5.** When the first generated answer fails citation validation,
`processRagQuery` regenerates exactly once with the feedback prompt and
re-validates the regenerated answer; the returned validation has
`retryCount = 1` exactly in that case and `retryCount = 0` when the first
answer was already valid; no execution makes more than two generation
calls (the initial one plus at most one regeneration). -/
theorem processRagQuery_single_retry (gen : String → String)
    (basePrompt : String) (sourceCount : ℕ) :
    (generateValidateWithRetry gen basePrompt sourceCount).generationCalls
      ≤ 2 ∧
    ((generateValidateWithRetry gen basePrompt
        sourceCount).validation.retryCount =
      if (extractAndValidateCitations (gen basePrompt).data
          sourceCount).isValid then 0 else 1) ∧
    ((generateValidateWithRetry gen basePrompt sourceCount).generationCalls
        = 2 ↔
      (extractAndValidateCitations (gen basePrompt).data sourceCount).isValid
        = false) ∧
    ((extractAndValidateCitations (gen basePrompt).data sourceCount).isValid
        = false →
      (generateValidateWithRetry gen basePrompt sourceCount).answer =
        gen (buildRetryPrompt basePrompt (gen basePrompt)
          (extractAndValidateCitations (gen basePrompt).data sourceCount)
          sourceCount) ∧
      (generateValidateWithRetry gen basePrompt sourceCount).validation =
        { extractAndValidateCitations
            (generateValidateWithRetry gen basePrompt
              sourceCount).answer.data sourceCount with retryCount := 1 }) := by
  cases hv : (extractAndValidateCitations (gen basePrompt).data
      sourceCount).isValid with
  | true =>
    refine ⟨?_, ?_, ?_, ?_⟩ <;>
      simp [generateValidateWithRetry, hv,
        extractAndValidateCitations_retryCount]
  | false =>
    refine ⟨?_, ?_, ?_, ?_⟩ <;>
      simp [generateValidateWithRetry, hv,
        extractAndValidateCitations_retryCount]

/-- Witness for C5: a generator whose answers never carry citations forces
exactly one regeneration (two generation calls) with `retryCount = 1`. -/
theorem processRagQuery_single_retry_witness :
    (generateValidateWithRetry (fun _ => "short") "q" 1).generationCalls = 2 ∧
    (generateValidateWithRetry (fun _ => "short") "q" 1).validation.retryCount
      = 1 := by
  have h := processRagQuery_single_retry (fun _ => "short") "q" 1
  refine ⟨(h.2.2.1).mpr (by decide), ?_⟩
  rw [h.2.1]
  decide

/-- One dataset item of a batch evaluation. -/
structure EvalItem where
  query : String
  relevantDocumentIds : List String
  groundTruth : Option String := none
deriving DecidableEq, Repr

/-- The retrieval-metrics triple of an evaluation result. -/
structure RetrievalMetrics where
  precisionAtK : ℚ
  recallAtK : ℚ
  averageSimilarity : ℚ
deriving DecidableEq, Repr

/-- The per-item performance timings of an evaluation result. -/
structure EvalPerformance where
  embeddingMs : ℚ
  retrievalMs : ℚ
  generationMs : ℚ
  evaluationMs : ℚ
  faithfulnessMs : ℚ
  similarityMs : ℚ
  totalMs : ℚ
deriving DecidableEq, Repr

/-- `EvaluationQueryResult` from `evaluation.service.ts`. -/
structure EvaluationQueryResult where
  query : String
  ragAnswer : Option String
  groundTruth : Option String
  citations : List ℕ
  citationValidation : CitationValidationResult
  retrieval : RetrievalMetrics
  faithfulnessScore : ℚ
  answerSimilarityToGroundTruth : Option ℚ
  trustScore : ℚ
  trustBreakdown : TrustBreakdown
  evaluationModel : String
  generationModel : String
  diagnosis : String
  coldStart : Bool
  error : Option String := none
  performance : EvalPerformance
deriving DecidableEq, Repr

/-- `defaultCitationValidation` from `evaluation.service.ts`. -/
def defaultCitationValidation (issue : String) : CitationValidationResult :=
  { citations := [], uniqueCitations := [], invalidCitations := []
    hasCitations := false, factualSentenceCount := 0, citedSentenceCount := 0
    missingCitationSentenceCount := 0, coverage := 0, citationValidity := 0
    isValid := false, retryCount := 0, issues := [issue] }

/-- The per-item fallback assembled in the `catch` branch of
`evaluateRagQueryBatch` for an item whose evaluation threw (`msg` is the
thrown error message, or the "Unknown error" text for non-`Error`
throws). -/
def evaluationErrorResult (item : EvalItem)
    (evaluationModel generationModel : Option String) (msg : String) :
    EvaluationQueryResult :=
  { query := item.query
    ragAnswer := none
    groundTruth := item.groundTruth
    citations := []
    citationValidation := defaultCitationValidation "evaluation_error"
    retrieval := ⟨0, 0, 0⟩
    faithfulnessScore := 0
    answerSimilarityToGroundTruth := none
    trustScore := 0
    trustBreakdown :=
      { mode := .full, score := 0, citationCoverage := 0
        citationValidity := 0, faithfulnessScore := some 0
        precisionAtK := some 0, answerSimilarityToGroundTruth := some 0
        baseScore := some 0, citationScore := some 0
        semanticCompensationApplied := some false
        cappedByCitationPolicy := false }
    evaluationModel := evaluationModel.getD "default"
    generationModel := generationModel.getD "default"
    diagnosis := "error"
    coldStart := false
    error := some msg
    performance := ⟨0, 0, 0, 0, 0, 0, 0⟩ }

/-- The result assembly of `evaluateRagQueryBatch`: one limiter-wrapped
task per dataset item, each catching its own failure and substituting the
error fallback; `Promise.all` yields the results in submission order.
`evalOne` is the oracle for `evaluateRagQuery`, giving either the result
or the thrown error message for each item. -/
def evaluateRagQueryBatchResults
    (evalOne : EvalItem → Except String EvaluationQueryResult)
    (dataset : List EvalItem)
    (evaluationModel generationModel : Option String) :
    List EvaluationQueryResult :=
  dataset.map (fun item =>
    match evalOne item with
    | .ok r => r
    | .error msg =>
      evaluationErrorResult item evaluationModel generationModel msg)

/-- **C7.** Batch evaluation returns exactly one result per dataset item,
in submission order, and never propagates a single failing item: the item
at position `i` yields its evaluation result when the evaluation
succeeds, and otherwise a zero-trust-score record with diagnosis
`"error"` and the thrown message in its `error` field. -/
theorem evaluateRagQueryBatch_isolation
    (evalOne : EvalItem → Except String EvaluationQueryResult)
    (dataset : List EvalItem) (em gm : Option String) :
    (evaluateRagQueryBatchResults evalOne dataset em gm).length =
      dataset.length ∧
    (∀ (i : ℕ) (item : EvalItem) (r : EvaluationQueryResult),
      dataset[i]? = some item → evalOne item = .ok r →
      (evaluateRagQueryBatchResults evalOne dataset em gm)[i]? = some r) ∧
    (∀ (i : ℕ) (item : EvalItem) (msg : String),
      dataset[i]? = some item → evalOne item = .error msg →
      ∃ out : EvaluationQueryResult,
        (evaluateRagQueryBatchResults evalOne dataset em gm)[i]? =
          some out ∧
        out.diagnosis = "error" ∧ out.trustScore = 0 ∧
        out.error = some msg ∧ out.query = item.query) := by
  refine ⟨by simp [evaluateRagQueryBatchResults], ?_, ?_⟩
  · intro i item r hitem hok
    simp [evaluateRagQueryBatchResults, hitem, hok]
  · intro i item msg hitem herr
    refine ⟨evaluationErrorResult item em gm msg, ?_, rfl, rfl, rfl, rfl⟩
    simp [evaluateRagQueryBatchResults, hitem, herr]

/-- Witness for C7: a one-item dataset whose evaluation throws produces a
full-length result list whose only entry is the captured error record. -/
theorem evaluateRagQueryBatch_isolation_witness :
    (evaluateRagQueryBatchResults (fun _ => .error "boom")
      [⟨"q", [], none⟩] none none).length = 1 ∧
    ∃ out : EvaluationQueryResult,
      (evaluateRagQueryBatchResults (fun _ => .error "boom")
        [⟨"q", [], none⟩] none none)[0]? = some out ∧
      out.diagnosis = "error" ∧ out.trustScore = 0 ∧
      out.error = some "boom" ∧ out.query = "q" := by
  have h := evaluateRagQueryBatch_isolation (fun _ => .error "boom")
    [⟨"q", [], none⟩] none none
  exact ⟨h.1, h.2.2 0 ⟨"q", [], none⟩ "boom" rfl rfl⟩

/-- The statistics fields of a batch run consulted by the persistence
guard. -/
structure BatchStatisticsRecord where
  totalQueries : ℕ
  successfulEvaluations : ℕ
  datasetSize : ℕ
  averageTrustScore : ℚ
  batchTotalMs : ℚ
deriving DecidableEq, Repr

/-- The parts of a benchmark record consulted by
`validateBenchmarkRecord`. -/
structure BenchmarkRecord where
  generationModel : String
  evaluationModel : String
  statistics : BatchStatisticsRecord
deriving DecidableEq, Repr

/-- `validateBenchmarkRecord` from `evaluation.service.ts`.  The model
names are strings by construction, so the two `typeof` guards always
pass; the record is rejected when the dataset is empty, when the average
trust score is zero while `totalQueries > 0`, or when the batch latency
is zero. -/
def validateBenchmarkRecord (record : BenchmarkRecord) : Bool :=
  if record.statistics.datasetSize = 0 then false
  else if record.statistics.averageTrustScore = 0 &&
      0 < record.statistics.totalQueries then false
  else if record.statistics.batchTotalMs = 0 then false
  else true

/-- The statistics of `evaluateRagQueryBatch` consulted by the guard.
Valid results are those without a top-level `error` (the `trustScore`
field is always a number, so the `!== undefined` half of the filter is
vacuous). -/
def batchStatisticsOf (dataset : List EvalItem)
    (results : List EvaluationQueryResult) (batchTotalMs : ℚ) :
    BatchStatisticsRecord :=
  let validResults := results.filter (fun r => r.error.isNone)
  { totalQueries := dataset.length
    successfulEvaluations := validResults.length
    datasetSize := dataset.length
    averageTrustScore :=
      if 0 < validResults.length then
        (validResults.map (fun r => r.trustScore)).sum /
          (validResults.length : ℚ)
      else 0
    batchTotalMs := batchTotalMs }

/-- The benchmark record assembled at the end of `evaluateRagQueryBatch`
(identifier, timestamp and dataset hash do not enter the guard). -/
def benchmarkRecordOf (dataset : List EvalItem)
    (results : List EvaluationQueryResult) (batchTotalMs : ℚ)
    (evaluationModel generationModel : Option String) : BenchmarkRecord :=
  { generationModel := generationModel.getD "default"
    evaluationModel := evaluationModel.getD "default"
    statistics := batchStatisticsOf dataset results batchTotalMs }

/-- **C8 counterexample.** A one-item batch whose single evaluation threw
(so the batch legitimately has zero successful evaluations) with nonzero
total latency is NOT persisted, although the claimed guard — non-empty
dataset, nonzero latency, and (nonzero trust OR zero successes) — holds
for it. -/
theorem benchmark_persistence_guard_cex :
    validateBenchmarkRecord (benchmarkRecordOf [⟨"q", [], none⟩]
      [evaluationErrorResult ⟨"q", [], none⟩ none none "boom"] 5 none none)
      = false ∧
    ((benchmarkRecordOf [⟨"q", [], none⟩]
      [evaluationErrorResult ⟨"q", [], none⟩ none none "boom"] 5 none
      none).statistics.datasetSize ≠ 0 ∧
    (benchmarkRecordOf [⟨"q", [], none⟩]
      [evaluationErrorResult ⟨"q", [], none⟩ none none "boom"] 5 none
      none).statistics.batchTotalMs ≠ 0 ∧
    ((benchmarkRecordOf [⟨"q", [], none⟩]
      [evaluationErrorResult ⟨"q", [], none⟩ none none "boom"] 5 none
      none).statistics.averageTrustScore ≠ 0 ∨
     (benchmarkRecordOf [⟨"q", [], none⟩]
      [evaluationErrorResult ⟨"q", [], none⟩ none none "boom"] 5 none
      none).statistics.successfulEvaluations = 0)) := by
  refine ⟨rfl, by norm_num [benchmarkRecordOf, batchStatisticsOf,
    evaluationErrorResult], by norm_num [benchmarkRecordOf,
    batchStatisticsOf], Or.inr ?_⟩
  norm_num [benchmarkRecordOf, batchStatisticsOf, evaluationErrorResult]

/-- **C8 (amended).** A benchmark record of a batch run is persisted
exactly when the dataset is non-empty, the batch latency is nonzero, and
the average trust score is nonzero; in particular a non-empty batch whose
evaluations all failed (average trust zero over zero successes) is NOT
recorded. -/
theorem benchmark_persistence_guard (dataset : List EvalItem)
    (results : List EvaluationQueryResult) (batchTotalMs : ℚ)
    (em gm : Option String) :
    validateBenchmarkRecord
        (benchmarkRecordOf dataset results batchTotalMs em gm) = true ↔
      dataset ≠ [] ∧ batchTotalMs ≠ 0 ∧
        (batchStatisticsOf dataset results
          batchTotalMs).averageTrustScore ≠ 0 := by
  simp only [validateBenchmarkRecord, benchmarkRecordOf, batchStatisticsOf]
  rcases Nat.eq_zero_or_pos dataset.length with hlen | hlen
  · simp [hlen, List.length_eq_zero.mp hlen]
  · have hne : dataset ≠ [] := by
      intro hcontra
      rw [hcontra] at hlen
      simp at hlen
    by_cases havg : (if 0 < (results.filter
        (fun r => r.error.isNone)).length then
          ((results.filter (fun r => r.error.isNone)).map
            (fun r => r.trustScore)).sum /
            ((results.filter (fun r => r.error.isNone)).length : ℚ)
        else 0) = 0 <;>
      by_cases hms : batchTotalMs = 0 <;>
        simp [Nat.pos_iff_ne_zero.mp hlen, havg, hlen, hms, hne]

/-- The per-model batch statistics consulted by the leaderboard. -/
structure ModelRunStats where
  averageTrustScore : ℚ
  averageFaithfulness : ℚ
  averagePrecision : ℚ
  averageGenerationLatency : ℚ
  averageEvaluationLatency : ℚ
  p95GenerationMs : ℚ
deriving DecidableEq, Repr

/-- A leaderboard row of `evaluateRagQueryBatchMultiModel`. -/
structure LeaderboardEntry where
  model : String
  avgTrustScore : ℚ
  avgFaithfulness : ℚ
  avgPrecision : ℚ
  avgGenerationLatency : ℚ
  avgEvaluationLatency : ℚ
  p95GenerationMs : ℚ
  adjustedScore : ℚ
deriving DecidableEq, Repr

/-- One leaderboard row: the adjusted score is the trust score minus the
latency penalty, floored at `0` (`Math.max(0, adjustedScore)`). -/
def leaderboardEntryOf (model : String) (s : ModelRunStats) :
    LeaderboardEntry :=
  let latencyPenalty :=
    (s.averageGenerationLatency + s.averageEvaluationLatency) / 100000
  let adjustedScore := s.averageTrustScore - latencyPenalty
  { model := model
    avgTrustScore := s.averageTrustScore
    avgFaithfulness := s.averageFaithfulness
    avgPrecision := s.averagePrecision
    avgGenerationLatency := s.averageGenerationLatency
    avgEvaluationLatency := s.averageEvaluationLatency
    p95GenerationMs := s.p95GenerationMs
    adjustedScore := max 0 adjustedScore }

/-- The ordering used by `leaderboard.sort((a, b) => b.adjustedScore -
a.adjustedScore)`: larger clamped adjusted scores first. -/
def leaderboardLE (a b : LeaderboardEntry) : Prop :=
  b.adjustedScore ≤ a.adjustedScore

instance : DecidableRel leaderboardLE := fun a b =>
  inferInstanceAs (Decidable (b.adjustedScore ≤ a.adjustedScore))

instance : IsTotal LeaderboardEntry leaderboardLE :=
  ⟨fun a b => le_total b.adjustedScore a.adjustedScore⟩

instance : IsTrans LeaderboardEntry leaderboardLE :=
  ⟨fun _ _ _ h1 h2 => le_trans h2 h1⟩

/-- The leaderboard of `evaluateRagQueryBatchMultiModel`: one row per
candidate model (in input order), sorted by clamped adjusted score
descending; `Array.prototype.sort` is stable, embedded as a stable
insertion sort. -/
def leaderboardOf (models : List (String × ModelRunStats)) :
    List LeaderboardEntry :=
  List.insertionSort leaderboardLE
    (models.map (fun p => leaderboardEntryOf p.1 p.2))

/-- The raw latency-adjusted score of a row, as recoverable from its
fields: `trust − (avgGenerationLatency + avgEvaluationLatency)/100000`. -/
def rawAdjustedScore (e : LeaderboardEntry) : ℚ :=
  e.avgTrustScore - (e.avgGenerationLatency + e.avgEvaluationLatency) / 100000

/-- **C9 counterexample.** With two models whose raw latency-adjusted
scores are both negative (−0.9 for the first listed, −0.499 for the
second), both clamp to adjusted score `0`, the stable sort keeps the
input order, and the resulting leaderboard is NOT ranked descending by the
raw latency-adjusted score `trust − (genLat + evalLat)/100000`. -/
theorem leaderboard_rank_cex :
    ¬ List.Pairwise (fun x y => rawAdjustedScore y ≤ rawAdjustedScore x)
      (leaderboardOf [("b", ⟨0, 0, 0, 90000, 0, 0⟩),
        ("a", ⟨1/1000, 0, 0, 50000, 0, 0⟩)]) := by
  intro hpair
  have hlist : leaderboardOf [("b", ⟨0, 0, 0, 90000, 0, 0⟩),
      ("a", ⟨1/1000, 0, 0, 50000, 0, 0⟩)] =
      [leaderboardEntryOf "b" ⟨0, 0, 0, 90000, 0, 0⟩,
        leaderboardEntryOf "a" ⟨1/1000, 0, 0, 50000, 0, 0⟩] := by
    norm_num [leaderboardOf, List.insertionSort, List.orderedInsert,
      leaderboardLE, leaderboardEntryOf]
  rw [hlist] at hpair
  rcases List.pairwise_cons.mp hpair with ⟨hrel, _⟩
  have h := hrel (leaderboardEntryOf "a" ⟨1/1000, 0, 0, 50000, 0, 0⟩)
    (by simp)
  norm_num [rawAdjustedScore, leaderboardEntryOf] at h

/-- **C9 (amended).** The leaderboard is the input rows permuted into
descending order of the CLAMPED adjusted score `max 0 (trust − (genLat +
evalLat)/100000)` (ties left in stable input order by the stable sort),
and every row carries that clamped score in its `adjustedScore` field. -/
theorem leaderboard_rank (models : List (String × ModelRunStats)) :
    List.Sorted leaderboardLE (leaderboardOf models) ∧
    (leaderboardOf models).Perm
      (models.map (fun p => leaderboardEntryOf p.1 p.2)) ∧
    ∀ e ∈ leaderboardOf models,
      e.adjustedScore = max 0 (rawAdjustedScore e) := by
  refine ⟨List.sorted_insertionSort _ _, List.perm_insertionSort _ _, ?_⟩
  intro e he
  have hmem : e ∈ models.map (fun p => leaderboardEntryOf p.1 p.2) :=
    (List.perm_insertionSort leaderboardLE _).mem_iff.mp he
  rcases List.mem_map.mp hmem with ⟨p, _, rfl⟩
  rfl

/-- State of the `ConcurrencyLimiter`: the instantaneous `running` count
and FIFO `queue` of pending task ids, together with two histories used to
state the FIFO property — every id ever enqueued and every id admitted
from the queue, each in order. -/
structure LimiterState where
  limit : ℕ
  running : ℕ
  queue : List ℕ
  enqueued : List ℕ
  admitted : List ℕ
deriving DecidableEq, Repr

/-- The state of a fresh `new ConcurrencyLimiter(limit)`. -/
def LimiterState.init (limit : ℕ) : LimiterState := ⟨limit, 0, [], [], []⟩

/-- The events of the limiter, mirroring `run` and `processQueue` in
`evaluation.service.ts` (the check-and-increment pairs run without an
intervening suspension point, hence atomically in the single-threaded
event loop): a submission either starts at once when `running < limit` or
is pushed at the queue tail; a completion decrements `running` and then,
when the queue is non-empty and a slot is free, shifts the queue head and
starts it. -/
inductive LimiterStep : LimiterState → LimiterState → Prop
  | submitRun (s : LimiterState) (h : s.running < s.limit) :
      LimiterStep s { s with running := s.running + 1 }
  | submitQueue (s : LimiterState) (id : ℕ) (h : ¬ s.running < s.limit) :
      LimiterStep s
        { s with queue := s.queue ++ [id], enqueued := s.enqueued ++ [id] }
  | finishNoAdmit (s : LimiterState) (h : 0 < s.running)
      (hq : s.queue = [] ∨ ¬ s.running - 1 < s.limit) :
      LimiterStep s { s with running := s.running - 1 }
  | finishAdmit (s : LimiterState) (q : ℕ) (qs : List ℕ)
      (h : 0 < s.running) (hq : s.queue = q :: qs)
      (hlt : s.running - 1 < s.limit) :
      LimiterStep s
        { s with running := s.running - 1 + 1, queue := qs,
                 admitted := s.admitted ++ [q] }

/-- **C10.** In every state the limiter can reach from its initial state,
at most `limit` tasks are running, and the ids ever enqueued are exactly
the ids already admitted from the queue followed by the ids still queued —
i.e. excess submissions wait in FIFO order and are admitted in their
submission order as slots free. -/
theorem concurrencyLimiter_bound_fifo (m : ℕ) (s : LimiterState)
    (h : Relation.ReflTransGen LimiterStep (LimiterState.init m) s) :
    s.running ≤ s.limit ∧ s.enqueued = s.admitted ++ s.queue ∧
      s.limit = m := by
  induction h with
  | refl => exact ⟨Nat.zero_le _, rfl, rfl⟩
  | tail _ hstep ih =>
    rcases ih with ⟨ihrun, ihfifo, ihlim⟩
    cases hstep with
    | submitRun hlt => exact ⟨hlt, ihfifo, ihlim⟩
    | submitQueue id hge =>
      refine ⟨ihrun, ?_, ihlim⟩
      simp only [ihfifo, List.append_assoc]
    | finishNoAdmit hpos hq =>
      exact ⟨le_trans (Nat.sub_le _ _) ihrun, ihfifo, ihlim⟩
    | finishAdmit q qs hpos hq hlt =>
      refine ⟨hlt, ?_, ihlim⟩
      simp only [ihfifo, hq, List.append_assoc, List.singleton_append]

/-- Witness for C10: with `limit = 1`, after one immediate start, one
queued submission, and one completion that admits the queued task, the
reached state satisfies the bound and the FIFO bookkeeping. -/
theorem concurrencyLimiter_bound_fifo_witness :
    (⟨1, 1, [], [7], [7]⟩ : LimiterState).running ≤
        (⟨1, 1, [], [7], [7]⟩ : LimiterState).limit ∧
      (⟨1, 1, [], [7], [7]⟩ : LimiterState).enqueued =
        (⟨1, 1, [], [7], [7]⟩ : LimiterState).admitted ++
          (⟨1, 1, [], [7], [7]⟩ : LimiterState).queue ∧
      (⟨1, 1, [], [7], [7]⟩ : LimiterState).limit = 1 := by
  have h1 : LimiterStep (LimiterState.init 1) ⟨1, 1, [], [], []⟩ :=
    LimiterStep.submitRun (LimiterState.init 1) (by decide)
  have h2 : LimiterStep (⟨1, 1, [], [], []⟩ : LimiterState)
      ⟨1, 1, [7], [7], []⟩ :=
    LimiterStep.submitQueue ⟨1, 1, [], [], []⟩ 7 (by decide)
  have h3 : LimiterStep (⟨1, 1, [7], [7], []⟩ : LimiterState)
      ⟨1, 1, [], [7], [7]⟩ :=
    LimiterStep.finishAdmit ⟨1, 1, [7], [7], []⟩ 7 [] (by decide) rfl
      (by decide)
  exact concurrencyLimiter_bound_fifo 1 ⟨1, 1, [], [7], [7]⟩
    (((Relation.ReflTransGen.refl.tail h1).tail h2).tail h3)

/-- JavaScript `toLowerCase` over this repertoire: ASCII and Cyrillic. -/
def jsToLower (c : Char) : Char :=
  if 65 ≤ c.toNat && c.toNat ≤ 90 then Char.ofNat (c.toNat + 32)
  else if 1040 ≤ c.toNat && c.toNat ≤ 1071 then Char.ofNat (c.toNat + 32)
  else if 1024 ≤ c.toNat && c.toNat ≤ 1039 then Char.ofNat (c.toNat + 80)
  else c

/-- `toLowerCase` on strings. -/
def jsToLowerStr (s : String) : String := String.mk (s.data.map jsToLower)

/-- Collapse every whitespace run into a single space
(`replace(/\s+/g, " ")`); `inWS` records whether a run is open. -/
def collapseSpacesAux (inWS : Bool) : List Char → List Char
  | [] => []
  | c :: cs =>
    if jsWhitespaceChar c then
      if inWS then collapseSpacesAux true cs
      else ' ' :: collapseSpacesAux true cs
    else c :: collapseSpacesAux false cs

/-- `replace(/\s+/g, " ")`. -/
def collapseSpaces (l : List Char) : List Char := collapseSpacesAux false l

/-- Keep the first occurrence of each element (`new Set(...)` iteration
order). -/
def dedupKeepFirstAux {α : Type} [DecidableEq α] (seen : List α) :
    List α → List α
  | [] => []
  | x :: xs =>
    if x ∈ seen then dedupKeepFirstAux seen xs
    else x :: dedupKeepFirstAux (x :: seen) xs

/-- First-occurrence deduplication. -/
def dedupKeepFirst {α : Type} [DecidableEq α] (l : List α) : List α :=
  dedupKeepFirstAux [] l

/-- `normalizeForTokens` from `index_corpus.ts`: NFKC-normalize (identity
on this repertoire), lowercase, replace every character outside
`[\p{L}\p{N}\s]` by a space, collapse whitespace, trim. -/
def normalizeForTokens (l : List Char) : List Char :=
  jsTrim (collapseSpaces ((l.map jsToLower).map
    (fun c => if jsWordChar c || jsWhitespaceChar c then c else ' ')))

/-- The `STOP_WORDS` set from `index_corpus.ts`. -/
def STOP_WORDS : List String :=
  ["the", "and", "for", "are", "with", "that", "this", "from", "what",
   "how", "can", "does", "about", "need", "where", "which", "who", "when",
   "why",
   "можна", "треба",
   "щодо", "для", "про",
   "які", "який", "яка",
   "де", "чи", "та", "і", "в",
   "на", "до", "з", "це",
   "що", "як"]

/-- Split a character list at single spaces (`split(" ")`). -/
def splitOnSpaceAux (acc : List Char) : List Char → List (List Char)
  | [] => [acc.reverse]
  | c :: cs =>
    if c = ' ' then acc.reverse :: splitOnSpaceAux [] cs
    else splitOnSpaceAux (c :: acc) cs

/-- `split(" ")`. -/
def splitOnSpace (l : List Char) : List (List Char) := splitOnSpaceAux [] l

/-- `tokenize` from `index_corpus.ts`: normalize, split on spaces, keep
trimmed tokens of length at least 3 that are not stop words, deduplicate
keeping first occurrences. -/
def tokenize (input : List Char) : List String :=
  if input.isEmpty then []
  else
    let normalized := normalizeForTokens input
    if normalized.isEmpty then []
    else
      let tokens := ((splitOnSpace normalized).map jsTrim).filter
        (fun t => 3 ≤ t.length && !STOP_WORDS.contains (String.mk t))
      dedupKeepFirst (tokens.map String.mk)

/-- Whether the first list is a prefix of the second. -/
def isPrefixOfChars : List Char → List Char → Bool
  | [], _ => true
  | _ :: _, [] => false
  | a :: as, b :: bs => a = b && isPrefixOfChars as bs

/-- JavaScript `String.prototype.includes`: substring containment. -/
def isSubstringOf (needle : List Char) : List Char → Bool
  | [] => needle.isEmpty
  | c :: cs => isPrefixOfChars needle (c :: cs) || isSubstringOf needle cs

/-- `containsAny`: some term occurs as a substring of the normalized
text. -/
def containsAnyL (normalizedText : List Char) (terms : List String) : Bool :=
  terms.any (fun term => isSubstringOf term.data normalizedText)

/-- Append a category if not already present (the `add` closure of
`inferPreferredCategories`). -/
def addCategory (cs : List String) (c : String) : List String :=
  if cs.contains c then cs else cs ++ [c]

/-- Admission-intent keywords. -/
def admissionIntentTerms : List String :=
  ["вступ", "прийом",
   "абітур",
   "зарахув",
   "admission", "applicant", "enroll", "entrance"]

/-- Document-intent keywords. -/
def documentIntentTerms : List String :=
  ["документ",
   "довідк",
   "сертиф",
   "паспорт", "заяв",
   "document", "certificate", "passport", "required"]

/-- Admission-conditions keywords. -/
def admissionConditionTerms : List String :=
  ["умов", "правил",
   "conditions", "requirements", "rules"]

/-- Academic-integrity keywords. -/
def integrityTerms : List String :=
  ["академічн",
   "доброчес",
   "plagiarism", "integrity", "етик", "cheating"]

/-- Scholarship keywords. -/
def scholarshipTerms : List String :=
  ["стипенд", "scholarship",
   "грант", "grant"]

/-- Material-base keywords. -/
def materialBaseTerms : List String :=
  ["матеріаль",
   "технічн",
   "material base", "infrastructure", "base"]

/-- Regulations keywords. -/
def regulationTerms : List String :=
  ["положен",
   "регламент",
   "норматив",
   "rule", "regulation", "policy"]

/-- `inferPreferredCategories` from `index_corpus.ts`: categories added in
a fixed order as keyword groups match the normalized query. -/
def inferPreferredCategories (queryText : Option String) : List String :=
  match queryText with
  | none => []
  | some qt =>
    let q := normalizeForTokens qt.data
    if q.isEmpty then []
    else
      let hasAdmissionIntent := containsAnyL q admissionIntentTerms
      let hasDocumentIntent := containsAnyL q documentIntentTerms
      let c1 :=
        if hasAdmissionIntent then
          addCategory (addCategory [] "admission_documents") "admission"
        else []
      let c2 :=
        if hasDocumentIntent && !hasAdmissionIntent then
          addCategory (addCategory c1 "admission_documents") "regulations"
        else c1
      let c3 :=
        if hasAdmissionIntent && containsAnyL q admissionConditionTerms then
          addCategory c2 "admission"
        else c2
      let c4 :=
        if containsAnyL q integrityTerms then
          addCategory c3 "academic_integrity"
        else c3
      let c5 :=
        if containsAnyL q scholarshipTerms then addCategory c4 "scholarship"
        else c4
      let c6 :=
        if containsAnyL q materialBaseTerms then
          addCategory c5 "material_base"
        else c5
      if containsAnyL q regulationTerms then addCategory c6 "regulations"
      else c6

/-- The metadata keys of a search result that the ranker consults.
`sectionName` models the key `section` (a Lean keyword); `year` holds the
already-numeric year value (`toOptionalNumber` of the stored value). -/
structure SearchMetadata where
  documentId : Option String := none
  year : Option ℚ := none
  documentType : Option String := none
  category : Option String := none
  title : Option String := none
  documentTitle : Option String := none
  sectionName : Option String := none
  subsection : Option String := none
deriving DecidableEq, Repr

/-- A raw vector-search result (`SearchResult` of `chroma.service.ts`). -/
structure SearchResult where
  id : String
  text : String
  distance : ℚ
  metadata : Option SearchMetadata := none
deriving DecidableEq, Repr

/-- `toOptionalString`: non-strings and blank strings become `undefined`,
other strings are trimmed. -/
def toOptionalString (v : Option String) : Option String :=
  match v with
  | none => none
  | some s =>
    let t := jsTrim s.data
    if t.isEmpty then none else some (String.mk t)

/-- The numeric `metadata.year` of a result (`toOptionalNumber`). -/
def metaYear (r : SearchResult) : Option ℚ :=
  r.metadata.bind (fun m => m.year)

/-- `getResultCategory`: trimmed `category`, else trimmed
`documentType`. -/
def getResultCategory (r : SearchResult) : Option String :=
  match toOptionalString (r.metadata.bind (fun m => m.category)) with
  | some c => some c
  | none => toOptionalString (r.metadata.bind (fun m => m.documentType))

/-- `lexicalOverlapScore` from `index_corpus.ts`: the fraction of distinct
query tokens present among the tokens of a sample built from the text
prefix (900 characters), title, document title, section and subsection. -/
def lexicalOverlapScore (queryTokens : List String) (r : SearchResult) :
    ℚ :=
  if queryTokens.isEmpty then 0
  else
    let parts : List String :=
      ([some (String.mk (r.text.data.take 900)),
        toOptionalString (r.metadata.bind (fun m => m.title)),
        toOptionalString (r.metadata.bind (fun m => m.documentTitle)),
        toOptionalString (r.metadata.bind (fun m => m.sectionName)),
        toOptionalString (r.metadata.bind (fun m => m.subsection))
       ].reduceOption).filter (fun s => !s.isEmpty)
    let textSample := String.intercalate " " parts
    let resultTokens := tokenize textSample.data
    if resultTokens.isEmpty then 0
    else
      let qset := dedupKeepFirst queryTokens
      ((qset.filter (fun t => resultTokens.contains t)).length : ℚ) /
        (qset.length : ℚ)

/-- `isLowInformationChunk` from `index_corpus.ts`: blank, punctuation-run,
fewer than 6 alphanumerics, more than 70 percent punctuation at length at
least 12, or at most 2 distinct characters once compacted to length at
least 12. -/
def isLowInformationChunk (text : List Char) : Bool :=
  let normalized := jsTrim (collapseSpaces text)
  if normalized.isEmpty then true
  else if 4 ≤ normalized.length &&
      normalized.all (fun c => c = '_' || c = '-' || c = '=' || c = '*' ||
        c = '.' || jsWhitespaceChar c) then true
  else
    let alphaNumCount := (normalized.filter jsWordChar).length
    if alphaNumCount < 6 then true
    else if 12 ≤ normalized.length &&
        decide ((7 : ℚ)/10 <
          1 - (alphaNumCount : ℚ) / (normalized.length : ℚ)) then true
    else
      let compact := (normalized.map jsToLower).filter
        (fun c => !jsWhitespaceChar c)
      12 ≤ compact.length && (dedupKeepFirst compact).length ≤ 2

/-- `dropNoiseChunks`: drop low-information chunks unless that would drop
everything. -/
def dropNoiseChunks (results : List SearchResult) : List SearchResult :=
  let cleaned :=
    results.filter (fun r => !isLowInformationChunk r.text.data)
  if !cleaned.isEmpty then cleaned else results

/-- The retrieval options relevant to the ranking pipeline. -/
structure RetrievalOptions where
  year : Option ℚ := none
  documentType : Option String := none
  topK : Option ℕ := none
  queryText : Option String := none
deriving DecidableEq, Repr

/-- The 160-character prefix of the normalized text, the key of the
duplicate-frequency map. -/
def textKeyOf (r : SearchResult) : List Char :=
  (normalizeForTokens r.text.data).take 160

/-- First index of a category in the preferred list (`rankByCategory`). -/
def listIndexOf : List String → String → ℕ → Option ℕ
  | [], _, _ => none
  | x :: xs, c, i => if x = c then some i else listIndexOf xs c (i + 1)

/-- The blended rerank score of one candidate within a pool:
`0.68*semantic + 0.26*lexical + categoryBoost − duplicatePenalty −
lowInfoPenalty − offCategoryPenalty`. -/
def rerankScore (results : List SearchResult) (queryTokens : List String)
    (preferredCategories : List String) (r : SearchResult) : ℚ :=
  let semantic := max 0 (min 1 (1 - r.distance))
  let lexical := lexicalOverlapScore queryTokens r
  let preferredSet := preferredCategories.map jsToLowerStr
  let category := (getResultCategory r).map jsToLowerStr
  let categoryRank :=
    match category with
    | some c => listIndexOf preferredCategories c 0
    | none => none
  let categoryBoost : ℚ :=
    match categoryRank with
    | none => 0
    | some rank => max (7/50) (7/25 - (rank : ℚ) * (3/50))
  let duplicateCount :=
    (results.filter (fun r2 => textKeyOf r2 = textKeyOf r)).length
  let duplicatePenalty : ℚ :=
    if 1 < duplicateCount then
      min (3/25) (((duplicateCount : ℚ) - 1) * (3/100))
    else 0
  let lowInfoPenalty : ℚ :=
    if isLowInformationChunk r.text.data then 1/4 else 0
  let offCategoryPenalty : ℚ :=
    match category with
    | some c =>
      if !preferredSet.isEmpty && !preferredSet.contains c then
        (if c = "regulations" then 7/50 else 2/25)
      else 0
    | none => 0
  semantic * (17/25) + lexical * (13/50) + categoryBoost -
    duplicatePenalty - lowInfoPenalty - offCategoryPenalty

/-- A candidate with its blended score, raw distance, and input index. -/
structure RankedEntry where
  result : SearchResult
  score : ℚ
  fallbackDistance : ℚ
  originalIndex : ℕ
deriving DecidableEq, Repr

/-- The lexicographic sort key of the rerank comparator: descending score,
then ascending raw distance, then ascending original index. -/
def rankKey (e : RankedEntry) : ℚ ×ₗ (ℚ ×ₗ ℕ) :=
  toLex (-e.score, toLex (e.fallbackDistance, e.originalIndex))

/-- The rerank ordering (`(a, b) => b.score − a.score`, distance and
original index as tie-breakers). -/
def rankedLE (a b : RankedEntry) : Prop := rankKey a ≤ rankKey b

instance : DecidableRel rankedLE := fun a b =>
  inferInstanceAs (Decidable (rankKey a ≤ rankKey b))

instance : IsTotal RankedEntry rankedLE :=
  ⟨fun a b => le_total (rankKey a) (rankKey b)⟩

instance : IsTrans RankedEntry rankedLE :=
  ⟨fun _ _ _ h1 h2 => le_trans h1 h2⟩

/-- The scored candidates of one rerank call, in input order. -/
def rankedEntries (results : List SearchResult) (queryTokens : List String)
    (preferredCategories : List String) : List RankedEntry :=
  results.enum.map (fun p =>
    { result := p.2
      score := rerankScore results queryTokens preferredCategories p.2
      fallbackDistance := p.2.distance
      originalIndex := p.1 })

/-- `rerankResults` from `index_corpus.ts`: identity without (trimmed)
query text, otherwise the candidates sorted by the blended score
(descending, ties by ascending distance then input order; the JavaScript
sort is stable and the comparator total, embedded as a stable insertion
sort). -/
def rerankResults (results : List SearchResult)
    (options : RetrievalOptions) : List SearchResult :=
  match options.queryText with
  | none => results
  | some qt0 =>
    let qtChars := jsTrim qt0.data
    if qtChars.isEmpty then results
    else
      (List.insertionSort rankedLE
        (rankedEntries results (tokenize qtChars)
          (inferPreferredCategories (some (String.mk qtChars))))).map
        (fun e => e.result)

/-- `prioritizePreferredCategories` from `index_corpus.ts`: when no
explicit document type was requested and the query infers preferred
categories with at least one match, move the matching chunks ahead of the
rest (both groups keeping their relative order). -/
def prioritizePreferredCategories (results : List SearchResult)
    (options : RetrievalOptions) : List SearchResult :=
  if (options.documentType.map
      (fun dt => !(jsTrim dt.data).isEmpty)).getD false then results
  else
    match options.queryText with
    | none => results
    | some qt0 =>
      let qtChars := jsTrim qt0.data
      if qtChars.isEmpty then results
      else
        let preferredCategories :=
          (inferPreferredCategories (some (String.mk qtChars))).map
            jsToLowerStr
        if preferredCategories.isEmpty then results
        else
          let preferredResults := results.filter (fun r =>
            match (getResultCategory r).map jsToLowerStr with
            | some c => preferredCategories.contains c
            | none => false)
          if preferredResults.isEmpty then results
          else
            let nonPreferredResults := results.filter (fun r =>
              match (getResultCategory r).map jsToLowerStr with
              | some c => !preferredCategories.contains c
              | none => true)
            preferredResults ++ nonPreferredResults

/-- `applyMetadataFilters` from `index_corpus.ts`: exact year filter,
case-insensitive document-type filter (on `documentType` else
`category`), and — when no year was requested — preference for the most
recent year while keeping year-less chunks. -/
def applyMetadataFilters (results : List SearchResult)
    (options : RetrievalOptions) : List SearchResult :=
  let f1 :=
    match options.year with
    | none => results
    | some y => results.filter (fun r => metaYear r = some y)
  let f2 :=
    match options.documentType with
    | none => f1
    | some dt =>
      if dt.isEmpty then f1
      else
        let expected := jsTrim (jsToLowerStr dt).data
        f1.filter (fun r =>
          match
            (match toOptionalString
                (r.metadata.bind (fun m => m.documentType)) with
             | some t => some t
             | none =>
               toOptionalString (r.metadata.bind (fun m => m.category)))
          with
          | some t => (jsToLowerStr t).data = expected
          | none => false)
  if options.year.isNone && !f2.isEmpty then
    let withYear := f2.filter (fun r => (metaYear r).isSome)
    let withoutYear := f2.filter (fun r => (metaYear r).isNone)
    match withYear.map (fun r => (metaYear r).getD 0) with
    | [] => f2
    | y :: ys =>
      let maxYear := ys.foldl max y
      (withYear.filter (fun r => metaYear r = some maxYear)) ++ withoutYear
  else f2

/-- Try the chunk-id pattern `^(.*)_(\d{4}|na)_(.+)$` with group 1 of
length `i`: after it an underscore, then four digits or `na`, then an
underscore and a non-empty remainder.  Returns groups 1 and 2. -/
def chunkIdNa (a : List Char) : List Char → Option (List Char × List Char)
  | 'n' :: 'a' :: '_' :: b =>
    if !b.isEmpty then some (a, ['n', 'a']) else none
  | _ => none

/-- One match attempt of the chunk-id pattern at split position `i`
(the `\d{4}` alternative first, then `na`). -/
def chunkIdMatchAt (l : List Char) (i : ℕ) :
    Option (List Char × List Char) :=
  match l.drop i with
  | '_' :: rest =>
    match rest with
    | d1 :: d2 :: d3 :: d4 :: '_' :: b =>
      if d1.isDigit && d2.isDigit && d3.isDigit && d4.isDigit && !b.isEmpty
      then some (l.take i, [d1, d2, d3, d4])
      else chunkIdNa (l.take i) rest
    | _ => chunkIdNa (l.take i) rest
  | _ => none

/-- The greedy match of `^(.*)_(\d{4}|na)_(.+)$`: the split with the
longest first group wins. -/
def chunkIdParse (l : List Char) : Option (List Char × List Char) :=
  (List.range (l.length + 1)).reverse.findSome?
    (fun i => chunkIdMatchAt l i)

/-- `extractDocumentIdFromChunkId`. -/
def extractDocumentIdFromChunkId (chunkId : String) : String :=
  match chunkIdParse chunkId.data with
  | some (a, _) => String.mk a
  | none => chunkId

/-- `extractDocumentYearFromChunkId`. -/
def extractDocumentYearFromChunkId (chunkId : String) : Option ℚ :=
  match chunkIdParse chunkId.data with
  | some (_, m) =>
    if m = ['n', 'a'] then none else some ((digitsToNat m : ℕ) : ℚ)
  | none => none

/-- `RetrievedChunk` from `types.ts` (`sectionName` models the field
`section`, a Lean keyword). -/
structure RetrievedChunk where
  id : String
  text : String
  distance : ℚ
  confidence : ℚ
  documentId : String
  documentYear : Option ℚ := none
  documentType : Option String := none
  sectionName : Option String := none
  subsection : Option String := none
  metadata : Option SearchMetadata := none
deriving DecidableEq, Repr

/-- `normalizeResult` from `index_corpus.ts`: derive confidence from the
distance and recover document id / year from the chunk id when metadata
is absent. -/
def normalizeResult (r : SearchResult) : RetrievedChunk :=
  { id := r.id
    text := r.text
    distance := r.distance
    confidence := max 0 (min 1 (1 - r.distance))
    documentId :=
      (toOptionalString (r.metadata.bind (fun m => m.documentId))).getD
        (extractDocumentIdFromChunkId r.id)
    documentYear :=
      match metaYear r with
      | some y => some y
      | none => extractDocumentYearFromChunkId r.id
    documentType :=
      match toOptionalString (r.metadata.bind (fun m => m.documentType))
      with
      | some t => some t
      | none => toOptionalString (r.metadata.bind (fun m => m.category))
    sectionName := toOptionalString (r.metadata.bind (fun m => m.sectionName))
    subsection := toOptionalString (r.metadata.bind (fun m => m.subsection))
    metadata := r.metadata }

/-- The pure post-search pipeline of `retrieveByEmbedding`
(`index_corpus.ts` lines 604–614): metadata filters, denoising,
reranking, category prioritization, truncation to `topK` (default 5), and
normalization, applied to the raw vector-search results. -/
def retrievePipeline (results : List SearchResult)
    (options : RetrievalOptions) : List RetrievedChunk :=
  let requestedTopK := options.topK.getD 5
  let filtered := applyMetadataFilters results options
  let denoised := dropNoiseChunks filtered
  let reranked := rerankResults denoised options
  let prioritized := prioritizePreferredCategories reranked options
  (prioritized.take requestedTopK).map normalizeResult

/-- First candidate of the retrieval-order counterexample: no metadata
category, distance 0, text matching the query. -/
def retrieveCexA : SearchResult :=
  { id := "a_na_x", text := "admission", distance := 0 }

/-- Second candidate: category `admission`, distance 1, no lexical
overlap with the query. -/
def retrieveCexB : SearchResult :=
  { id := "b_na_y"
    text := "abcdef"
    distance := 1
    metadata := some { category := some "admission" } }

/-- Options of the counterexample: query `admission`, no explicit year or
document type. -/
def retrieveCexOptions : RetrievalOptions :=
  { topK := some 5, queryText := some "admission" }

lemma mk_data (s : String) : String.mk s.data = s := rfl

lemma normalizeResult_id (r : SearchResult) :
    (normalizeResult r).id = r.id := rfl

lemma cexTrim : jsTrim "admission".data = "admission".data := by
  simp [jsTrim, jsWhitespaceChar, String.data]

lemma cexTok : tokenize "admission".data = ["admission"] := by
  simp [tokenize, normalizeForTokens, collapseSpaces, collapseSpacesAux,
    jsTrim, jsWhitespaceChar, jsWordChar, jsToLower, splitOnSpace,
    splitOnSpaceAux, dedupKeepFirst, dedupKeepFirstAux, STOP_WORDS,
    String.data]

lemma cexCats : inferPreferredCategories (some "admission") =
    ["admission_documents", "admission"] := by
  simp [inferPreferredCategories, normalizeForTokens, collapseSpaces,
    collapseSpacesAux, jsTrim, jsWhitespaceChar, jsWordChar, jsToLower,
    containsAnyL, isSubstringOf, isPrefixOfChars, addCategory,
    admissionIntentTerms, documentIntentTerms, admissionConditionTerms,
    integrityTerms, scholarshipTerms, materialBaseTerms, regulationTerms,
    String.data]

lemma cexFiltered :
    applyMetadataFilters [retrieveCexA, retrieveCexB] retrieveCexOptions =
      [retrieveCexA, retrieveCexB] := by
  simp [applyMetadataFilters, retrieveCexOptions, retrieveCexA,
    retrieveCexB, metaYear]

lemma cexDenoised : dropNoiseChunks [retrieveCexA, retrieveCexB] =
    [retrieveCexA, retrieveCexB] := by
  simp [dropNoiseChunks, isLowInformationChunk, retrieveCexA, retrieveCexB,
    collapseSpaces, collapseSpacesAux, jsTrim, jsWhitespaceChar, jsWordChar,
    jsToLower, dedupKeepFirst, dedupKeepFirstAux, String.data]

lemma cexKeyA : textKeyOf retrieveCexA = "admission".data := by
  simp [textKeyOf, retrieveCexA, normalizeForTokens, collapseSpaces,
    collapseSpacesAux, jsTrim, jsWhitespaceChar, jsWordChar, jsToLower,
    String.data]

lemma cexKeyB : textKeyOf retrieveCexB = "abcdef".data := by
  simp [textKeyOf, retrieveCexB, normalizeForTokens, collapseSpaces,
    collapseSpacesAux, jsTrim, jsWhitespaceChar, jsWordChar, jsToLower,
    String.data]

lemma cexCatA : getResultCategory retrieveCexA = none := by
  simp [getResultCategory, retrieveCexA, toOptionalString]

lemma cexCatB : getResultCategory retrieveCexB = some "admission" := by
  simp [getResultCategory, retrieveCexB, toOptionalString, jsTrim,
    jsWhitespaceChar, String.data, mk_data]

set_option maxHeartbeats 2000000 in
lemma cexLexA : lexicalOverlapScore ["admission"] retrieveCexA = 1 := by
  norm_num +decide [lexicalOverlapScore, retrieveCexA, dedupKeepFirst,
    dedupKeepFirstAux, tokenize, normalizeForTokens, collapseSpaces,
    collapseSpacesAux, jsTrim, jsWhitespaceChar, jsWordChar, jsToLower,
    splitOnSpace, splitOnSpaceAux, STOP_WORDS, toOptionalString,
    String.intercalate, String.data, List.reduceOption]

set_option maxHeartbeats 2000000 in
lemma cexLexB : lexicalOverlapScore ["admission"] retrieveCexB = 0 := by
  norm_num +decide [lexicalOverlapScore, retrieveCexB, dedupKeepFirst,
    dedupKeepFirstAux, tokenize, normalizeForTokens, collapseSpaces,
    collapseSpacesAux, jsTrim, jsWhitespaceChar, jsWordChar, jsToLower,
    splitOnSpace, splitOnSpaceAux, STOP_WORDS, toOptionalString,
    String.intercalate, String.data, List.reduceOption]

lemma cexLowA : isLowInformationChunk retrieveCexA.text.data = false := by
  simp [isLowInformationChunk, retrieveCexA, collapseSpaces,
    collapseSpacesAux, jsTrim, jsWhitespaceChar, jsWordChar, jsToLower,
    dedupKeepFirst, dedupKeepFirstAux, String.data]

lemma cexLowB : isLowInformationChunk retrieveCexB.text.data = false := by
  simp [isLowInformationChunk, retrieveCexB, collapseSpaces,
    collapseSpacesAux, jsTrim, jsWhitespaceChar, jsWordChar, jsToLower,
    dedupKeepFirst, dedupKeepFirstAux, String.data]

set_option maxHeartbeats 1000000 in
lemma cexScoreA :
    rerankScore [retrieveCexA, retrieveCexB] ["admission"]
      ["admission_documents", "admission"] retrieveCexA = 47/50 := by
  norm_num +decide [rerankScore, cexLexA, cexKeyA, cexKeyB, cexLowA,
    cexCatA, listIndexOf, jsToLowerStr, jsToLower, String.data,
    show retrieveCexA.distance = 0 from rfl]

set_option maxHeartbeats 1000000 in
lemma cexScoreB :
    rerankScore [retrieveCexA, retrieveCexB] ["admission"]
      ["admission_documents", "admission"] retrieveCexB = 11/50 := by
  norm_num +decide [rerankScore, cexLexB, cexKeyA, cexKeyB, cexLowB,
    cexCatB, listIndexOf, jsToLowerStr, jsToLower, String.data,
    show retrieveCexB.distance = 1 from rfl]

lemma cexEntries :
    rankedEntries [retrieveCexA, retrieveCexB] ["admission"]
      ["admission_documents", "admission"] =
    [⟨retrieveCexA, 47/50, 0, 0⟩, ⟨retrieveCexB, 11/50, 1, 1⟩] := by
  simp only [rankedEntries, List.enum, List.enumFrom, List.map]
  rw [cexScoreA, cexScoreB]
  simp [show retrieveCexA.distance = 0 from rfl,
    show retrieveCexB.distance = 1 from rfl]

lemma cexSortedEntries :
    List.insertionSort rankedLE
      [(⟨retrieveCexA, 47/50, 0, 0⟩ : RankedEntry),
        ⟨retrieveCexB, 11/50, 1, 1⟩] =
    [⟨retrieveCexA, 47/50, 0, 0⟩, ⟨retrieveCexB, 11/50, 1, 1⟩] := by
  have hle : rankedLE (⟨retrieveCexA, 47/50, 0, 0⟩ : RankedEntry)
      ⟨retrieveCexB, 11/50, 1, 1⟩ := by
    show rankKey _ ≤ rankKey _
    rw [rankKey, rankKey, Prod.Lex.le_iff]
    left
    norm_num
  simp [List.insertionSort, List.orderedInsert, hle]

lemma cexReranked :
    rerankResults [retrieveCexA, retrieveCexB] retrieveCexOptions =
      [retrieveCexA, retrieveCexB] := by
  show (List.insertionSort rankedLE (rankedEntries _ (tokenize (jsTrim
    "admission".data)) (inferPreferredCategories (some (String.mk (jsTrim
    "admission".data)))))).map (fun e => e.result) = _
  rw [cexTrim, mk_data, cexTok, cexCats, cexEntries, cexSortedEntries]
  simp

set_option maxHeartbeats 1000000 in
lemma cexPrioritized :
    prioritizePreferredCategories [retrieveCexA, retrieveCexB]
      retrieveCexOptions = [retrieveCexB, retrieveCexA] := by
  simp +decide [prioritizePreferredCategories, retrieveCexOptions, cexTrim,
    mk_data, cexCats, cexCatA, cexCatB, jsToLowerStr, jsToLower,
    String.data]

/-- **C6 counterexample.** On this input the pipeline returns the
category-prioritized chunk first although its blended rerank score
(`11/50`) is strictly lower than that of the second returned chunk
(`47/50`) — no tie is involved — so the output is NOT ordered best-first
by the blended rerank score as claimed. -/
theorem retrieve_order_cex :
    (retrievePipeline [retrieveCexA, retrieveCexB]
      retrieveCexOptions).map (fun c => c.id) = ["b_na_y", "a_na_x"] ∧
    rerankScore (dropNoiseChunks (applyMetadataFilters
        [retrieveCexA, retrieveCexB] retrieveCexOptions))
      (tokenize "admission".data)
      (inferPreferredCategories (some "admission")) retrieveCexB <
    rerankScore (dropNoiseChunks (applyMetadataFilters
        [retrieveCexA, retrieveCexB] retrieveCexOptions))
      (tokenize "admission".data)
      (inferPreferredCategories (some "admission")) retrieveCexA := by
  constructor
  · simp only [retrievePipeline]
    rw [cexFiltered, cexDenoised, cexReranked, cexPrioritized]
    simp [normalizeResult_id, retrieveCexA, retrieveCexB,
      retrieveCexOptions]
  · rw [cexFiltered, cexDenoised, cexTok, cexCats, cexScoreA, cexScoreB]
    norm_num

/-- **C6 (amended).** The pipeline returns at most `topK` chunks
(default 5); the rerank stage is a permutation of its input pool and —
when non-blank query text is supplied — equals the pool sorted by the
rerank ordering, which compares by descending blended score with ties
broken by ascending raw distance and then by original input order; the
final output, however, is this order with inferred-preferred-category
chunks subsequently moved to the front (stable within the two groups), so
it is best-first by score only within each category-priority group. -/
theorem retrieve_rank_amended (results : List SearchResult)
    (opts : RetrievalOptions) :
    (retrievePipeline results opts).length ≤ opts.topK.getD 5 ∧
    (∀ pool : List SearchResult, (rerankResults pool opts).Perm pool) ∧
    (∀ a b : RankedEntry, rankedLE a b ↔
      (b.score < a.score ∨ (a.score = b.score ∧
        (a.fallbackDistance < b.fallbackDistance ∨
          (a.fallbackDistance = b.fallbackDistance ∧
            a.originalIndex ≤ b.originalIndex))))) ∧
    (∀ (pool : List SearchResult) (qt0 : String),
      opts.queryText = some qt0 → (jsTrim qt0.data).isEmpty = false →
      rerankResults pool opts =
        (List.insertionSort rankedLE (rankedEntries pool
          (tokenize (jsTrim qt0.data))
          (inferPreferredCategories
            (some (String.mk (jsTrim qt0.data)))))).map
          (fun e => e.result) ∧
      List.Sorted rankedLE (List.insertionSort rankedLE
        (rankedEntries pool (tokenize (jsTrim qt0.data))
          (inferPreferredCategories
            (some (String.mk (jsTrim qt0.data))))))) := by
  refine ⟨?_, ?_, ?_, ?_⟩
  · simp only [retrievePipeline, List.length_map, List.length_take]
    exact min_le_left _ _
  · intro pool
    simp only [rerankResults]
    cases hqt : opts.queryText with
    | none => exact List.Perm.refl _
    | some qt0 =>
      by_cases hne : (jsTrim qt0.data).isEmpty
      · simp [hne]
      · simp only [hne, Bool.false_eq_true, if_false]
        have hperm := (List.perm_insertionSort rankedLE
          (rankedEntries pool (tokenize (jsTrim qt0.data))
            (inferPreferredCategories
              (some (String.mk (jsTrim qt0.data)))))).map
          (fun e => e.result)
        have heq : (rankedEntries pool (tokenize (jsTrim qt0.data))
            (inferPreferredCategories
              (some (String.mk (jsTrim qt0.data))))).map
            (fun e => e.result) = pool := by
          simp only [rankedEntries, List.map_map]
          exact List.enum_map_snd pool
        rw [heq] at hperm
        exact hperm
  · intro a b
    show rankKey a ≤ rankKey b ↔ _
    rw [rankKey, rankKey, Prod.Lex.le_iff]
    simp only [Prod.Lex.le_iff, neg_lt_neg_iff, neg_inj]
  · intro pool qt0 hq hne
    refine ⟨?_, List.sorted_insertionSort _ _⟩
    simp only [rerankResults, hq, hne, Bool.false_eq_true, if_false]

/-- Witness for the amended retrieval theorem at a concrete input. -/
theorem retrieve_rank_amended_witness :
    (retrievePipeline [retrieveCexA] retrieveCexOptions).length ≤ 5 ∧
    rerankResults [retrieveCexA] retrieveCexOptions =
      (List.insertionSort rankedLE (rankedEntries [retrieveCexA]
        (tokenize (jsTrim "admission".data))
        (inferPreferredCategories
          (some (String.mk (jsTrim "admission".data)))))).map
        (fun e => e.result) := by
  have h := retrieve_rank_amended [retrieveCexA] retrieveCexOptions
  exact ⟨h.1, (h.2.2.2 [retrieveCexA] "admission" rfl rfl).1⟩

end RagTrust
